import Mathlib

/- Shallow embedding of the marketing-content-generator frontend:
   the file-upload validator, the generate / trends / analyze handlers,
   the HTTP client adapter and the base64 data-URL encoder, together
   with theorems settling the specification claims. -/

/-- A toast notification as produced by the `toast` hook calls. -/
structure Toast where
  title : String
  description : String
  variant : Option String
  deriving DecidableEq, Repr

/-- A JavaScript thrown value: whether it is an `Error` instance, and its message. -/
structure JsError where
  is_error : Bool
  message : String
  deriving DecidableEq, Repr

/-- A selected browser `File`: name, MIME type and raw byte content. -/
structure File where
  name : String
  type : String
  bytes : List Nat
  deriving DecidableEq, Repr

/-- `File.size` is the byte length of the file content, as in the DOM `File` API. -/
def File.size (f : File) : Nat :=
  f.bytes.length

/-- Response of `POST /api/v1/content/generate`. -/
structure GenerateResponse where
  content : String
  image_url : Option String
  deriving DecidableEq, Repr

/-- Response of `GET /api/v1/trends`. -/
structure TrendsResponse where
  trends : List String
  deriving DecidableEq, Repr

/-- Response of `POST /api/v1/analysis`; the score is a number, embedded as a rational. -/
structure AnalyzeResponse where
  sentiment : ℚ
  sentiment_label : String
  deriving DecidableEq, Repr

/-- A network request issued through the HTTP client adapter. -/
inductive Request where
  | generate (prompt : String) (file : Option String)
  | getTrends
  | analyze (content : String)
  deriving DecidableEq, Repr

/-- Local state of the `ContentGenerator` view. -/
structure GenState where
  prompt : String
  file : Option File
  generatedContent : String
  imageUrl : Option String
  isLoading : Bool
  deriving DecidableEq, Repr

/-- Local state of the `TrendsViewer` view. -/
structure TrendsState where
  trends : List String
  isLoading : Bool
  deriving DecidableEq, Repr

/-- Local state of the `SentimentAnalyzer` view. -/
structure SentState where
  content : String
  sentiment : Option ℚ
  sentimentLabel : Option String
  isLoading : Bool
  deriving DecidableEq, Repr

/-- Embedding of JavaScript `String.prototype.trim`: strips leading and
trailing whitespace characters. -/
def jsTrim (s : String) : String :=
  String.mk (((s.toList.dropWhile Char.isWhitespace).reverse.dropWhile
    Char.isWhitespace).reverse)

/-- Whether the character list starting here begins with `pat`. -/
def charsStartWith : List Char → List Char → Bool
  | [], _ => true
  | _ :: _, [] => false
  | p :: ps, c :: cs => p == c && charsStartWith ps cs

/-- Whether `pat` occurs as a contiguous run inside the character list. -/
def charsInclude (pat : List Char) : List Char → Bool
  | [] => pat.isEmpty
  | c :: rest => charsStartWith pat (c :: rest) || charsInclude pat rest

/-- Embedding of JavaScript `String.prototype.includes`. -/
def strIncludes (s pat : String) : Bool :=
  charsInclude pat.toList s.toList

/-- The MIME allow-list checked by `handleFileUpload`. -/
def allowedTypes : List String :=
  ["text/csv", "application/pdf", "application/vnd.ms-excel"]

def fileTooLargeToast : Toast :=
  ⟨"File too large", "Please select a file smaller than 5MB", some "destructive"⟩

def invalidTypeToast : Toast :=
  ⟨"Invalid file type", "Please select a CSV or PDF file", some "destructive"⟩

def promptRequiredToast : Toast :=
  ⟨"Prompt required", "Please enter a prompt to generate content", some "destructive"⟩

def contentRequiredToast : Toast :=
  ⟨"Content required", "Please enter content to analyze", some "destructive"⟩

def generateSuccessToast : Toast :=
  ⟨"Content generated successfully", "Your marketing content has been created", none⟩

/-- Message shown when a generate failure is classified as a connectivity failure. -/
def connectFailMsg : String :=
  "Cannot connect to backend. Make sure FastAPI server is running on localhost:8000"

/-- Message shown for every other generate failure. -/
def genericFailMsg : String :=
  "Failed to generate content. Please try again."

/-- The connectivity test applied to a caught error in `handleGenerate`:
`error instanceof Error` and the message is exactly "Network Error" or
contains "ECONNREFUSED". -/
def isNetworkError (e : JsError) : Bool :=
  e.is_error && (e.message == "Network Error" || strIncludes e.message "ECONNREFUSED")

def generationFailedToast (e : JsError) : Toast :=
  ⟨"Generation failed",
   if isNetworkError e then connectFailMsg else genericFailMsg,
   some "destructive"⟩

def analysisCompleteToast (label : String) : Toast :=
  ⟨"Analysis complete", "Content sentiment: " ++ label, none⟩

def analysisFailedToast : Toast :=
  ⟨"Analysis failed", "Failed to analyze sentiment. Please try again.", some "destructive"⟩

def trendsUpdatedToast (n : Nat) : Toast :=
  ⟨"Trends updated", "Loaded " ++ toString n ++ " marketing trends", none⟩

def trendsFailedToast : Toast :=
  ⟨"Failed to fetch trends", "Unable to load marketing trends. Please try again.", some "destructive"⟩

/-- `handleFileUpload` of `ContentGenerator`: validates the selected file against
the 5 MiB size bound and the MIME allow-list; only a valid selection is stored.
The handler itself issues no network request. -/
def handleFileUpload (selected : Option File) (s : GenState) :
    GenState × Option Toast × List Request :=
  match selected with
  | none => (s, none, [])
  | some f =>
      if 5 * 1024 * 1024 < f.size then
        (s, some fileTooLargeToast, [])
      else if f.type ∉ allowedTypes then
        (s, some invalidTypeToast, [])
      else
        ({ s with file := some f }, none, [])

/-- Modelled from the spec: the source's `fileToBase64` delegates to the
browser primitive `FileReader.readAsDataURL`, which is not repository code;
per the spec it must "produce a single base64 data-URL string". `encodeChar`
maps a 6-bit group to its character in the standard base64 alphabet. -/
def encodeChar (n : Nat) : Char :=
  if n < 26 then Char.ofNat (65 + n)
  else if n < 52 then Char.ofNat (97 + (n - 26))
  else if n < 62 then Char.ofNat (48 + (n - 52))
  else if n = 62 then '+'
  else '/'

/-- Inverse of `encodeChar` on the base64 alphabet. -/
def decodeChar (c : Char) : Nat :=
  let n := c.toNat
  if 65 ≤ n && n ≤ 90 then n - 65
  else if 97 ≤ n && n ≤ 122 then n - 97 + 26
  else if 48 ≤ n && n ≤ 57 then n - 48 + 52
  else if c = '+' then 62
  else 63

/-- Modelled from the spec: standard base64 encoding of a byte sequence,
three bytes to four characters with `=` padding, as produced by
`FileReader.readAsDataURL`. -/
def b64encode : List Nat → List Char
  | [] => []
  | [a] =>
      [encodeChar (a / 4), encodeChar (a % 4 * 16), '=', '=']
  | [a, b] =>
      [encodeChar (a / 4), encodeChar (a % 4 * 16 + b / 16),
       encodeChar (b % 16 * 4), '=']
  | a :: b :: c :: rest =>
      encodeChar (a / 4) :: encodeChar (a % 4 * 16 + b / 16) ::
      encodeChar (b % 16 * 4 + c / 64) :: encodeChar (c % 64) :: b64encode rest

/-- Standard base64 decoding, the inverse direction used to state the
round-trip property; fails on length or padding violations. -/
def b64decode : List Char → Option (List Nat)
  | [] => some []
  | c0 :: c1 :: c2 :: c3 :: rest =>
      if c2 = '=' then
        if c3 = '=' ∧ rest = [] then
          some [decodeChar c0 * 4 + decodeChar c1 / 16]
        else none
      else if c3 = '=' then
        if rest = [] then
          some [decodeChar c0 * 4 + decodeChar c1 / 16,
                decodeChar c1 % 16 * 16 + decodeChar c2 / 4]
        else none
      else
        (b64decode rest).map fun tail =>
          (decodeChar c0 * 4 + decodeChar c1 / 16) ::
          (decodeChar c1 % 16 * 16 + decodeChar c2 / 4) ::
          (decodeChar c2 % 4 * 64 + decodeChar c3) :: tail
  | _ => none

/-- `fileToBase64` of `ContentGenerator`: reads the file as a base64 data-URL
string, `data:MIME;base64,DATA` (the read itself is the browser primitive
`FileReader.readAsDataURL`, modelled from the spec). -/
def fileToBase64 (f : File) : String :=
  "data:" ++ f.type ++ ";base64," ++ String.mk (b64encode f.bytes)

/-- Decoding of a base64 data-URL string: the payload after the first comma,
base64-decoded; fails when no comma occurs. Verification-side inverse used to
state round-trip fidelity. -/
def dataUrlDecode (s : String) : Option (List Nat) :=
  if s.toList.dropWhile (fun c => c ≠ ',') = [] then none
  else b64decode ((s.toList.dropWhile (fun c => c ≠ ',')).drop 1)

/-- `handleGenerate` of `ContentGenerator`, with the outcome of the single
`contentApi.generate` call passed explicitly. A whitespace-only prompt is
rejected before any request; otherwise the optional file is encoded, one
request is issued, and the outcome updates the state with loading cleared. -/
def handleGenerate (s : GenState) (outcome : Except JsError GenerateResponse) :
    GenState × Option Toast × List Request :=
  if jsTrim s.prompt = "" then
    (s, some promptRequiredToast, [])
  else
    let fileData := s.file.map fileToBase64
    let req := Request.generate s.prompt fileData
    match outcome with
    | Except.ok r =>
        ({ s with generatedContent := r.content, imageUrl := r.image_url,
                  isLoading := false },
         some generateSuccessToast, [req])
    | Except.error e =>
        ({ s with isLoading := false }, some (generationFailedToast e), [req])

/-- `fetchTrends` of `TrendsViewer`, with the outcome of the single
`trendsApi.getTrends` call passed explicitly. -/
def fetchTrends (u : TrendsState) (outcome : Except JsError TrendsResponse) :
    TrendsState × Option Toast × List Request :=
  match outcome with
  | Except.ok r =>
      ({ trends := r.trends, isLoading := false },
       some (trendsUpdatedToast r.trends.length), [Request.getTrends])
  | Except.error _ =>
      ({ u with isLoading := false }, some trendsFailedToast, [Request.getTrends])

/-- `handleAnalyze` of `SentimentAnalyzer`, with the outcome of the single
`analysisApi.analyze` call passed explicitly. -/
def handleAnalyze (t : SentState) (outcome : Except JsError AnalyzeResponse) :
    SentState × Option Toast × List Request :=
  if jsTrim t.content = "" then
    (t, some contentRequiredToast, [])
  else
    let req := Request.analyze t.content
    match outcome with
    | Except.ok r =>
        ({ t with sentiment := some r.sentiment,
                  sentimentLabel := some r.sentiment_label,
                  isLoading := false },
         some (analysisCompleteToast r.sentiment_label), [req])
    | Except.error _ =>
        ({ t with isLoading := false }, some analysisFailedToast, [req])

/-- `getSentimentProgress` of `SentimentAnalyzer`: maps the score onto the
bar width percentage. -/
def getSentimentProgress (score : Option ℚ) : ℚ :=
  match score with
  | none => 50
  | some s => (s + 1) / 2 * 100

/-- The width bound to the progress bar element of the results card:
`getSentimentProgress(sentiment)` percent. -/
def sentimentBarWidth (t : SentState) : ℚ :=
  getSentimentProgress t.sentiment

/-- JavaScript truthiness of a nullable string: `null` and `""` are falsy. -/
def jsTruthyStr : Option String → Bool
  | none => false
  | some v => v != ""

/-- The image element rendered in the generated-content card: its `src`
and the fact that its error handler hides the element. -/
structure ImgElem where
  src : String
  hidesOnError : Bool
  deriving DecidableEq, Repr

/-- What the `ContentGenerator` results card shows. -/
inductive GenDisplay where
  | spinner
  | results (content : String) (image : Option ImgElem)
  | placeholder
  deriving DecidableEq, Repr

/-- Rendering of the `ContentGenerator` results card: spinner while loading;
otherwise, if `generatedContent` is truthy, the content text together with an
image exactly when `imageUrl` is truthy (the image's `onError` handler sets
`display: none`, so a broken image hides itself); otherwise the idle
placeholder text. -/
def renderGen (s : GenState) : GenDisplay :=
  if s.isLoading then GenDisplay.spinner
  else if s.generatedContent ≠ "" then
    GenDisplay.results s.generatedContent
      (match s.imageUrl with
       | some u => if u ≠ "" then some ⟨u, true⟩ else none
       | none => none)
  else GenDisplay.placeholder

/-- What the `TrendsViewer` body shows. -/
inductive TrendsDisplay where
  | spinner
  | cardGrid (cards : List String)
  | emptyPlaceholder
  deriving DecidableEq, Repr

/-- Whether a `TrendsViewer` body is the card grid. -/
def TrendsDisplay.isCardGrid : TrendsDisplay → Bool
  | TrendsDisplay.cardGrid _ => true
  | _ => false

/-- Rendering of the `TrendsViewer` body: spinner while loading; a grid with
one card per trend, in response order, when the list is non-empty; the
explicit no-trends placeholder otherwise. -/
def renderTrends (isLoading : Bool) (trends : List String) : TrendsDisplay :=
  if isLoading then TrendsDisplay.spinner
  else if 0 < trends.length then TrendsDisplay.cardGrid trends
  else TrendsDisplay.emptyPlaceholder

/-- An outbound HTTP request built by one of the adapter operations. -/
structure HttpRequest where
  method : String
  url : String
  deriving DecidableEq, Repr

namespace FrontendLibApi

/-- `API_BASE_URL` of `src/Frontend/lib/api.ts`: the hard-coded constant
`"http://localhost:8000"`; the module reads nothing from the environment,
so the value ignores any environment override. -/
def API_BASE_URL (_env : Option String) : String :=
  "http://localhost:8000"

/-- `contentApi.generate` of `src/Frontend/lib/api.ts`. -/
def generate (env : Option String) : HttpRequest :=
  ⟨"POST", API_BASE_URL env ++ "/api/v1/content/generate"⟩

/-- `trendsApi.getTrends` of `src/Frontend/lib/api.ts`. -/
def getTrends (env : Option String) : HttpRequest :=
  ⟨"GET", API_BASE_URL env ++ "/api/v1/trends"⟩

/-- `analysisApi.analyze` of `src/Frontend/lib/api.ts`. -/
def analyze (env : Option String) : HttpRequest :=
  ⟨"POST", API_BASE_URL env ++ "/api/v1/analysis"⟩

end FrontendLibApi

namespace UnnamedPart002

/-- `API_BASE_URL` of `src/unnamed/part_002`:
`process.env.NEXT_PUBLIC_API_BASE_URL ?? "http://localhost:8000"`. -/
def API_BASE_URL (env : Option String) : String :=
  env.getD "http://localhost:8000"

/-- `contentApi.generate` of `src/unnamed/part_002`, the only operation this
module defines. -/
def generate (env : Option String) : HttpRequest :=
  ⟨"POST", API_BASE_URL env ++ "/api/v1/content/generate"⟩

end UnnamedPart002

theorem decodeChar_encodeChar : ∀ n : Nat, n < 64 → decodeChar (encodeChar n) = n := by decide

theorem encodeChar_ne_pad : ∀ n : Nat, n < 64 → encodeChar n ≠ '=' := by decide

theorem strToList_append (a b : String) : (a ++ b).toList = a.toList ++ b.toList := rfl

theorem b64_roundtrip : ∀ bs : List Nat, (∀ x ∈ bs, x < 256) →
    b64decode (b64encode bs) = some bs := by
  intro bs
  induction bs using b64encode.induct with
  | case1 => intro _; rfl
  | case2 a =>
      intro h
      have ha : a < 256 := h a (by simp)
      have h1 : a / 4 < 64 := by omega
      have h2 : a % 4 * 16 < 64 := by omega
      simp only [b64encode, b64decode, reduceIte, and_true,
        decodeChar_encodeChar _ h1, decodeChar_encodeChar _ h2,
        Option.some.injEq, List.cons.injEq, and_true]
      omega
  | case3 a b =>
      intro h
      have ha : a < 256 := h a (by simp)
      have hb : b < 256 := h b (by simp)
      have h1 : a / 4 < 64 := by omega
      have h2 : a % 4 * 16 + b / 16 < 64 := by omega
      have h3 : b % 16 * 4 < 64 := by omega
      simp only [b64encode, b64decode]
      rw [if_neg (encodeChar_ne_pad _ h3)]
      simp only [reduceIte,
        decodeChar_encodeChar _ h1, decodeChar_encodeChar _ h2,
        decodeChar_encodeChar _ h3, Option.some.injEq, List.cons.injEq, and_true]
      omega
  | case4 a b c rest ih =>
      intro h
      have ha : a < 256 := h a (by simp)
      have hb : b < 256 := h b (by simp)
      have hc : c < 256 := h c (by simp)
      have hrest : ∀ x ∈ rest, x < 256 := fun x hx => h x (by simp [hx])
      have h1 : a / 4 < 64 := by omega
      have h2 : a % 4 * 16 + b / 16 < 64 := by omega
      have h3 : b % 16 * 4 + c / 64 < 64 := by omega
      have h4 : c % 64 < 64 := by omega
      simp only [b64encode, b64decode]
      rw [if_neg (encodeChar_ne_pad _ h3), if_neg (encodeChar_ne_pad _ h4),
        ih hrest]
      simp [decodeChar_encodeChar _ h1, decodeChar_encodeChar _ h2,
        decodeChar_encodeChar _ h3, decodeChar_encodeChar _ h4]
      omega

theorem dropWhile_past_safe (p r : List Char) (hp : ∀ c ∈ p, c ≠ ',') :
    (p ++ r).dropWhile (fun c => c ≠ ',') = r.dropWhile (fun c => c ≠ ',') := by
  induction p with
  | nil => simp
  | cons c cs ih =>
      have hc : c ≠ ',' := hp c (by simp)
      rw [List.cons_append, List.dropWhile_cons, if_pos (by simpa using hc)]
      exact ih (fun x hx => hp x (by simp [hx]))

theorem dataUrlDecode_concrete (mime : String) (bs : List Nat)
    (hm : ∀ c ∈ mime.toList, c ≠ ',') (hb : ∀ x ∈ bs, x < 256) :
    dataUrlDecode ("data:" ++ mime ++ ";base64," ++ String.mk (b64encode bs)) =
      some bs := by
  have hl : ("data:" ++ mime ++ ";base64," ++ String.mk (b64encode bs)).toList
      = "data:".toList ++ (mime.toList ++ (";base64,".toList ++ b64encode bs)) := by
    rw [strToList_append, strToList_append, strToList_append,
      List.append_assoc, List.append_assoc]
    rfl
  have hdrop : (";base64,".toList ++ b64encode bs).dropWhile (fun c => c ≠ ',')
      = ',' :: b64encode bs := by
    have h8 : ";base64,".toList = [';', 'b', 'a', 's', 'e', '6', '4', ','] := rfl
    rw [h8]
    simp [List.dropWhile_cons]
  unfold dataUrlDecode
  rw [hl, dropWhile_past_safe _ _ (by decide), dropWhile_past_safe _ _ hm, hdrop]
  rw [if_neg (by simp)]
  simpa using b64_roundtrip bs hb

/-- C1: a selected file larger than 5*1024*1024 bytes or with a MIME type
outside the allow-list is rejected locally by `handleFileUpload`: a
user-visible toast is emitted, the state is returned unchanged (so the file is
never stored and hence never encoded), no request is issued by the handler,
and a later `handleGenerate` issues exactly the requests it would have issued
before the rejected selection. -/
theorem c1_invalid_file_rejected_locally (f : File) (s : GenState)
    (h : 5 * 1024 * 1024 < f.size ∨ f.type ∉ allowedTypes) :
    (handleFileUpload (some f) s).1 = s ∧
    ((handleFileUpload (some f) s).2.1 = some fileTooLargeToast ∨
     (handleFileUpload (some f) s).2.1 = some invalidTypeToast) ∧
    (handleFileUpload (some f) s).2.2 = [] ∧
    ∀ outcome, (handleGenerate (handleFileUpload (some f) s).1 outcome).2.2 =
      (handleGenerate s outcome).2.2 := by
  unfold handleFileUpload
  by_cases hs : 5 * 1024 * 1024 < f.size
  · simp [hs]
  · have ht : f.type ∉ allowedTypes := h.resolve_left hs
    simp [hs, ht]

theorem c1_witness :
    (handleFileUpload (some ⟨"x.png", "image/png", [1]⟩)
        ⟨"", none, "", none, false⟩).1 = ⟨"", none, "", none, false⟩ ∧
    ((handleFileUpload (some ⟨"x.png", "image/png", [1]⟩)
        ⟨"", none, "", none, false⟩).2.1 = some fileTooLargeToast ∨
     (handleFileUpload (some ⟨"x.png", "image/png", [1]⟩)
        ⟨"", none, "", none, false⟩).2.1 = some invalidTypeToast) ∧
    (handleFileUpload (some ⟨"x.png", "image/png", [1]⟩)
        ⟨"", none, "", none, false⟩).2.2 = [] ∧
    ∀ outcome, (handleGenerate (handleFileUpload (some ⟨"x.png", "image/png", [1]⟩)
        ⟨"", none, "", none, false⟩).1 outcome).2.2 =
      (handleGenerate ⟨"", none, "", none, false⟩ outcome).2.2 :=
  c1_invalid_file_rejected_locally ⟨"x.png", "image/png", [1]⟩
    ⟨"", none, "", none, false⟩ (Or.inr (by decide))

/-- C10: the stored file is updated exactly by a selection passing both the
size and the type check; an invalid selection leaves the previously stored
file in place, and the upload handler never touches the other fields. -/
theorem c10_file_state_invariant (f : File) (s : GenState) :
    ((handleFileUpload (some f) s).1).file =
      (if f.size ≤ 5 * 1024 * 1024 ∧ f.type ∈ allowedTypes then some f
       else s.file) ∧
    (handleFileUpload none s).1 = s ∧
    ((handleFileUpload (some f) s).1).prompt = s.prompt ∧
    ((handleFileUpload (some f) s).1).generatedContent = s.generatedContent ∧
    ((handleFileUpload (some f) s).1).imageUrl = s.imageUrl ∧
    ((handleFileUpload (some f) s).1).isLoading = s.isLoading := by
  unfold handleFileUpload
  by_cases hs : 5 * 1024 * 1024 < f.size
  · have hcond : ¬(f.size ≤ 5 * 1024 * 1024 ∧ f.type ∈ allowedTypes) :=
      fun hc => absurd hc.1 (by omega)
    simp [hs, hcond]
  · by_cases ht : f.type ∈ allowedTypes
    · have hcond : f.size ≤ 5 * 1024 * 1024 ∧ f.type ∈ allowedTypes :=
        ⟨by omega, ht⟩
      simp [hs, ht, hcond]
    · have hcond : ¬(f.size ≤ 5 * 1024 * 1024 ∧ f.type ∈ allowedTypes) :=
        fun hc => absurd hc.2 ht
      simp [hs, ht, hcond]

/-- C2: a whitespace-only prompt in the generation view, and whitespace-only
content in the sentiment view, are rejected immediately with a local toast:
no request is issued and the view state is returned unchanged. -/
theorem c2_blank_input_rejected (s : GenState) (t : SentState)
    (o₁ : Except JsError GenerateResponse) (o₂ : Except JsError AnalyzeResponse)
    (hs : jsTrim s.prompt = "") (ht : jsTrim t.content = "") :
    handleGenerate s o₁ = (s, some promptRequiredToast, []) ∧
    handleAnalyze t o₂ = (t, some contentRequiredToast, []) := by
  constructor
  · unfold handleGenerate
    rw [if_pos hs]
  · unfold handleAnalyze
    rw [if_pos ht]

theorem c2_witness :
    handleGenerate ⟨"   ", none, "", none, false⟩
        (Except.error ⟨true, "Network Error"⟩)
      = (⟨"   ", none, "", none, false⟩, some promptRequiredToast, []) ∧
    handleAnalyze ⟨" ", none, none, false⟩ (Except.error ⟨true, "boom"⟩)
      = (⟨" ", none, none, false⟩, some contentRequiredToast, []) :=
  c2_blank_input_rejected _ _ _ _ (by decide) (by decide)

/-- C3: after a successful analyze call the width bound to the progress bar is
((score + 1) / 2) * 100 percent; in particular score -1 gives 0, 0 gives 50,
0.8 gives 90 and 1 gives 100. -/
theorem c3_sentiment_progress (t : SentState) (r : AnalyzeResponse)
    (hc : jsTrim t.content ≠ "") :
    sentimentBarWidth ((handleAnalyze t (Except.ok r)).1) =
      (r.sentiment + 1) / 2 * 100 ∧
    getSentimentProgress (some (-1)) = 0 ∧
    getSentimentProgress (some 0) = 50 ∧
    getSentimentProgress (some (4 / 5)) = 90 ∧
    getSentimentProgress (some 1) = 100 := by
  refine ⟨?_, by norm_num [getSentimentProgress], by norm_num [getSentimentProgress],
    by norm_num [getSentimentProgress], by norm_num [getSentimentProgress]⟩
  unfold handleAnalyze sentimentBarWidth
  rw [if_neg hc]
  rfl

theorem c3_witness :
    sentimentBarWidth ((handleAnalyze ⟨"Boost your fitness!", none, none, false⟩
        (Except.ok ⟨4 / 5, "positive"⟩)).1) = ((4 : ℚ) / 5 + 1) / 2 * 100 ∧
    getSentimentProgress (some (-1)) = 0 ∧
    getSentimentProgress (some 0) = 50 ∧
    getSentimentProgress (some (4 / 5)) = 90 ∧
    getSentimentProgress (some 1) = 100 :=
  c3_sentiment_progress ⟨"Boost your fitness!", none, none, false⟩
    ⟨4 / 5, "positive"⟩ (by decide)

/-- C5: a failed generate call produces the connectivity message exactly when
the thrown error passes the network-error test, the generic retry message in
every other case, and the two messages are distinct. -/
theorem c5_failure_message (s : GenState) (e : JsError)
    (hp : jsTrim s.prompt ≠ "") :
    (handleGenerate s (Except.error e)).2.1 =
      some ⟨"Generation failed",
            if isNetworkError e then connectFailMsg else genericFailMsg,
            some "destructive"⟩ ∧
    connectFailMsg ≠ genericFailMsg := by
  refine ⟨?_, by decide⟩
  unfold handleGenerate
  rw [if_neg hp]
  rfl

theorem c5_witness :
    (handleGenerate ⟨"a post", none, "", none, false⟩
        (Except.error ⟨true, "Network Error"⟩)).2.1 =
      some ⟨"Generation failed",
            if isNetworkError ⟨true, "Network Error"⟩ then connectFailMsg
            else genericFailMsg,
            some "destructive"⟩ ∧
    connectFailMsg ≠ genericFailMsg :=
  c5_failure_message ⟨"a post", none, "", none, false⟩
    ⟨true, "Network Error"⟩ (by decide)

/-- C6: a getTrends response is stored in order; when the view is not loading,
an empty list renders the no-trends placeholder, which is neither the spinner
nor a card grid, and a non-empty list renders the card grid with exactly one
card per trend in response order. -/
theorem c6_trends_rendering (u : TrendsState) (r : TrendsResponse)
    (hne : r.trends ≠ []) :
    (fetchTrends u (Except.ok r)).1.trends = r.trends ∧
    renderTrends false [] = TrendsDisplay.emptyPlaceholder ∧
    TrendsDisplay.emptyPlaceholder ≠ TrendsDisplay.spinner ∧
    TrendsDisplay.emptyPlaceholder.isCardGrid = false ∧
    renderTrends false r.trends = TrendsDisplay.cardGrid r.trends := by
  refine ⟨rfl, rfl, by decide, rfl, ?_⟩
  unfold renderTrends
  rw [if_neg (by simp), if_pos (List.length_pos.mpr hne)]

theorem c6_witness :
    (fetchTrends ⟨[], true⟩ (Except.ok ⟨["AI video", "UGC"]⟩)).1.trends =
      ["AI video", "UGC"] ∧
    renderTrends false [] = TrendsDisplay.emptyPlaceholder ∧
    TrendsDisplay.emptyPlaceholder ≠ TrendsDisplay.spinner ∧
    TrendsDisplay.emptyPlaceholder.isCardGrid = false ∧
    renderTrends false ["AI video", "UGC"] =
      TrendsDisplay.cardGrid ["AI video", "UGC"] :=
  c6_trends_rendering ⟨[], true⟩ ⟨["AI video", "UGC"]⟩ (by decide)

/-- C8: on a failed request, the generation and sentiment views change nothing
but the loading flag and emit a toast: prompt, attached file, entered content
and previously displayed results all survive for a retry. -/
theorem c8_error_preserves_inputs (s : GenState) (t : SentState)
    (e₁ e₂ : JsError) (hp : jsTrim s.prompt ≠ "") (hc : jsTrim t.content ≠ "") :
    (handleGenerate s (Except.error e₁)).1 = { s with isLoading := false } ∧
    ((handleGenerate s (Except.error e₁)).2.1).isSome = true ∧
    (handleAnalyze t (Except.error e₂)).1 = { t with isLoading := false } ∧
    ((handleAnalyze t (Except.error e₂)).2.1).isSome = true := by
  unfold handleGenerate handleAnalyze
  rw [if_neg hp, if_neg hc]
  exact ⟨rfl, rfl, rfl, rfl⟩

theorem c8_witness :
    (handleGenerate ⟨"p", some ⟨"d.csv", "text/csv", [65]⟩, "old", some "u", true⟩
        (Except.error ⟨true, "boom"⟩)).1 =
      { prompt := "p", file := some ⟨"d.csv", "text/csv", [65]⟩,
        generatedContent := "old", imageUrl := some "u", isLoading := false } ∧
    ((handleGenerate ⟨"p", some ⟨"d.csv", "text/csv", [65]⟩, "old", some "u", true⟩
        (Except.error ⟨true, "boom"⟩)).2.1).isSome = true ∧
    (handleAnalyze ⟨"c", some (1 / 2), some "positive", true⟩
        (Except.error ⟨false, "x"⟩)).1 =
      { content := "c", sentiment := some (1 / 2),
        sentimentLabel := some "positive", isLoading := false } ∧
    ((handleAnalyze ⟨"c", some (1 / 2), some "positive", true⟩
        (Except.error ⟨false, "x"⟩)).2.1).isSome = true :=
  c8_error_preserves_inputs _ _ _ _ (by decide) (by decide)

/-- C7 counterexample: a successful generate response with the non-null empty
image URL is stored in the state, yet no image element is rendered — refuting
"the image is rendered exactly when image_url is non-null". -/
theorem c7_counterexample :
    ((handleGenerate ⟨"p", none, "", none, true⟩
        (Except.ok ⟨"hello", some ""⟩)).1).imageUrl = some "" ∧
    renderGen ((handleGenerate ⟨"p", none, "", none, true⟩
        (Except.ok ⟨"hello", some ""⟩)).1) = GenDisplay.results "hello" none := by
  decide

/-- C7 (amended): on a successful generate call the returned content and
nullable image URL are stored; when the stored content is non-empty the
content text is rendered, and an image element is rendered exactly when the
stored URL is truthy (non-null and non-empty); a rendered image hides itself
on load error rather than showing a placeholder icon. -/
theorem c7_amended_success_display (s : GenState) (r : GenerateResponse)
    (hp : jsTrim s.prompt ≠ "") (hc : r.content ≠ "") :
    ((handleGenerate s (Except.ok r)).1).generatedContent = r.content ∧
    ((handleGenerate s (Except.ok r)).1).imageUrl = r.image_url ∧
    renderGen ((handleGenerate s (Except.ok r)).1) =
      GenDisplay.results r.content
        (match r.image_url with
         | some u => if u ≠ "" then some ⟨u, true⟩ else none
         | none => none) := by
  have hstate : (handleGenerate s (Except.ok r)).1 =
      { s with generatedContent := r.content, imageUrl := r.image_url,
               isLoading := false } := by
    unfold handleGenerate
    rw [if_neg hp]
  refine ⟨by rw [hstate], by rw [hstate], ?_⟩
  rw [hstate]
  unfold renderGen
  simp only [Bool.false_eq_true, if_false]
  rw [if_pos hc]

theorem c7_amended_witness :
    ((handleGenerate ⟨"p", none, "", none, true⟩
        (Except.ok ⟨"hello", some "http://img/1.png"⟩)).1).generatedContent =
      "hello" ∧
    ((handleGenerate ⟨"p", none, "", none, true⟩
        (Except.ok ⟨"hello", some "http://img/1.png"⟩)).1).imageUrl =
      some "http://img/1.png" ∧
    renderGen ((handleGenerate ⟨"p", none, "", none, true⟩
        (Except.ok ⟨"hello", some "http://img/1.png"⟩)).1) =
      GenDisplay.results "hello"
        (match some "http://img/1.png" with
         | some u => if u ≠ "" then some ⟨u, true⟩ else none
         | none => none) :=
  c7_amended_success_display ⟨"p", none, "", none, true⟩
    ⟨"hello", some "http://img/1.png"⟩ (by decide) (by decide)

/-- C4 counterexample: with an environment override set, the adapter module
defining all three operations still uses the hard-coded localhost base URL —
the override does not reach `getTrends` (nor the module's other operations),
refuting the claim that the environment override governs all three. -/
theorem c4_counterexample :
    FrontendLibApi.API_BASE_URL (some "http://example.com:9999") =
      "http://localhost:8000" ∧
    (FrontendLibApi.getTrends (some "http://example.com:9999")).url =
      "http://localhost:8000/api/v1/trends" ∧
    UnnamedPart002.API_BASE_URL (some "http://example.com:9999") =
      "http://example.com:9999" := by
  refine ⟨rfl, by decide, rfl⟩

/-- C4 (amended): both adapter modules default the base URL to
http://localhost:8000. The module of src/unnamed/part_002 honours the
environment override but defines only `generate`; the module of
src/Frontend/lib/api.ts defines all three operations and hard-codes the base
URL, ignoring the environment, with every operation deriving its URL from
that constant. -/
theorem c4_amended_base_url (env : Option String) (o : String) :
    FrontendLibApi.API_BASE_URL none = "http://localhost:8000" ∧
    UnnamedPart002.API_BASE_URL none = "http://localhost:8000" ∧
    UnnamedPart002.API_BASE_URL (some o) = o ∧
    FrontendLibApi.API_BASE_URL env = "http://localhost:8000" ∧
    (FrontendLibApi.generate env).url =
      FrontendLibApi.API_BASE_URL env ++ "/api/v1/content/generate" ∧
    (FrontendLibApi.getTrends env).url =
      FrontendLibApi.API_BASE_URL env ++ "/api/v1/trends" ∧
    (FrontendLibApi.analyze env).url =
      FrontendLibApi.API_BASE_URL env ++ "/api/v1/analysis" ∧
    (UnnamedPart002.generate env).url =
      UnnamedPart002.API_BASE_URL env ++ "/api/v1/content/generate" :=
  ⟨rfl, rfl, rfl, rfl, rfl, rfl, rfl, rfl⟩

/-- C9: for every file accepted by the validator (size within the bound, MIME
type in the allow-list) whose content is a genuine byte sequence, decoding the
base64 data-URL produced by `fileToBase64` returns exactly the original
bytes. -/
theorem c9_fileToBase64_roundtrip (f : File)
    (hsize : f.size ≤ 5 * 1024 * 1024) (htype : f.type ∈ allowedTypes)
    (hbytes : ∀ x ∈ f.bytes, x < 256) :
    dataUrlDecode (fileToBase64 f) = some f.bytes := by
  have hm : ∀ c ∈ f.type.toList, c ≠ ',' := by
    have h := htype
    simp only [allowedTypes, List.mem_cons, List.not_mem_nil, or_false] at h
    rcases h with h | h | h <;> rw [h] <;> decide
  exact dataUrlDecode_concrete f.type f.bytes hm hbytes

theorem c9_witness :
    dataUrlDecode (fileToBase64 ⟨"a.csv", "text/csv", [72, 105, 33, 10]⟩) =
      some [72, 105, 33, 10] :=
  c9_fileToBase64_roundtrip ⟨"a.csv", "text/csv", [72, 105, 33, 10]⟩
    (by decide) (by decide) (by decide)
